import Mathlib

/-!
Shallow embedding of the `beam_scheduler` repository
(`SRC/beam_design.py`, `SRC/beam_table.py`, and the regression test
`testing/test_attic_L3_B1050.py`).

Reals are modelled as `ℚ`.  Python's `round(x, n)` (banker's rounding) is
modelled exactly on `ℚ`; Python's `/`, which raises `ZeroDivisionError` on a
zero divisor, is modelled as an `Option`-valued division where that matters.

The modules `beam`, `flexure`, `shear` and `sideface` are imported by
`SRC/beam_design.py` but are not part of the repository snapshot; the
definitions below that stand in for them are modelled from the specification
(sections 3, 4.1-4.4) and carry a doc comment saying so.  They are calibrated
against the concrete expectations of `testing/test_attic_L3_B1050.py`.
-/

/-- Python's `round` to an integer: round half to even (banker's rounding). -/
def pyRound (q : ℚ) : ℤ :=
  let f := ⌊q⌋
  let r := q - (f : ℚ)
  if r < 1/2 then f
  else if (1 : ℚ)/2 < r then f + 1
  else if f % 2 = 0 then f else f + 1

/-- Python's `round(x, n)`: round to `n` decimal places, half to even. -/
def roundTo (n : ℕ) (q : ℚ) : ℚ :=
  (pyRound (q * 10 ^ n) : ℚ) / 10 ^ n

/-- Python's true division: raises `ZeroDivisionError` on a zero divisor,
modelled as `none`. -/
def pyDiv (a b : ℚ) : Option ℚ :=
  if b = 0 then none else some (a / b)

/-- The three positions along the span (`"left"`, `"middle"`, `"right"` keys
of the per-position dictionaries). -/
inductive Pos : Type
  | left
  | middle
  | right
deriving DecidableEq

/-- A triple of values indexed by position, mirroring the
`{"left": _, "middle": _, "right": _}` dictionaries of the source. -/
structure Tri (α : Type) : Type where
  left : α
  middle : α
  right : α
deriving DecidableEq

/-- Look a `Tri` up by position key. -/
def Tri.get {α : Type} (t : Tri α) : Pos → α
  | Pos.left => t.left
  | Pos.middle => t.middle
  | Pos.right => t.right

/-- Modelled from the spec: the `beam.Beam` input record (module `beam` is
missing from the snapshot).  Fields follow spec section 3 ("BeamInput") and the
keyword arguments of the fixture `example_beam` in
`testing/test_attic_L3_B1050.py`. -/
structure Beam : Type where
  storey : String
  etabs_id : String
  width : ℚ
  depth : ℚ
  span : ℚ
  comp_conc_grade : ℚ
  flex_overstressed : Bool × Bool
  req_top_flex_reinf : Tri ℚ
  req_bot_flex_reinf : Tri ℚ
  req_torsion_flex_reinf : Tri ℚ
  shear_force : Tri ℚ
  shear_overstressed : Bool × Bool
  req_shear_reinf : Tri ℚ
  req_torsion_reinf : Tri ℚ
deriving DecidableEq

/-- The beam of the fixture `example_beam` (beam B1050 at Attic Level-3). -/
def exampleBeam : Beam where
  storey := "Attic Level-3"
  etabs_id := "B1050"
  width := 400
  depth := 750
  span := 8619
  comp_conc_grade := 45
  flex_overstressed := (false, false)
  req_top_flex_reinf := ⟨1979, 703, 1979⟩
  req_bot_flex_reinf := ⟨1230, 1099, 1053⟩
  req_torsion_flex_reinf := ⟨0, 0, 0⟩
  shear_force := ⟨237, 187, 216⟩
  shear_overstressed := (false, false)
  req_shear_reinf := ⟨0, 0, 0⟩
  req_torsion_reinf := ⟨0, 0, 0⟩

/-- Rational approximation of pi used for bar areas. -/
def piQ : ℚ := 314159265358979 / 100000000000000

/-- Cross-sectional area (mm²) of one bar of diameter `d` mm. -/
def barArea (d : ℕ) : ℚ := piQ / 4 * (d : ℚ) ^ 2

/-- Modelled from the spec (section 4.1): one candidate combination of the
reinforcement catalog with its human-readable text and provided area. -/
structure Combo : Type where
  text : String
  provided : ℚ
  diams : List ℕ
  dia : ℕ
  spacing : ℕ
deriving DecidableEq

/-- Modelled from the spec (sections 3 and 4.1): a selection record as stored
in the per-position result dictionaries (`rebar_text`/`links_text`,
`provided_reinf`, `utilization`, `diameter`, `spacing`, `solved`). -/
structure Selection : Type where
  text : String
  provided : ℚ
  utilization : ℚ
  diams : List ℕ
  dia : ℕ
  spacing : ℕ
  solved : Bool
deriving DecidableEq

/-- First combination of minimum provided area in a candidate list
(ties keep the earlier entry, so list order encodes the tie-break policy). -/
def pickMin (l : List Combo) : Option Combo :=
  l.foldl
    (fun acc c =>
      match acc with
      | none => some c
      | some a => if c.provided < a.provided then some c else some a)
    none

/-- First combination of maximum provided area in a candidate list. -/
def pickMax (l : List Combo) : Option Combo :=
  l.foldl
    (fun acc c =>
      match acc with
      | none => some c
      | some a => if a.provided < c.provided then some c else some a)
    none

/-- Utilization percentage of a selection: `0` when the demand is `0`,
otherwise `round(required / provided * 100, 1)`. -/
def utilizationOf (required provided : ℚ) : ℚ :=
  if required = 0 then 0 else roundTo 1 (required / provided * 100)

/-- Modelled from the spec (section 4.1): among the catalog combinations whose
provided area is at least the required area, pick the one of smallest provided
area and mark it solved; when none qualifies, surface the largest feasible
combination unsolved. -/
def select (required : ℚ) (combos : List Combo) : Selection :=
  match pickMin (combos.filter fun c => required ≤ c.provided) with
  | some c => ⟨c.text, c.provided, utilizationOf required c.provided,
      c.diams, c.dia, c.spacing, true⟩
  | none =>
    match pickMax combos with
    | some c => ⟨c.text, c.provided, utilizationOf required c.provided,
        c.diams, c.dia, c.spacing, false⟩
    | none => ⟨"", 0, 0, [], 0, 0, false⟩

/-- Modelled from the spec (section 4.1): the fixed ascending catalog of
longitudinal bar diameters used by the flexural designer, calibrated against
the selections asserted in `testing/test_attic_L3_B1050.py`. -/
def flexDiams : List ℕ := [16, 20, 25, 32]

/-- Modelled from the spec (section 4.1): all single-diameter and two-diameter
("mixed") flexural combinations for a bar count `count`.  Singles come first
and diameters ascend, so the first minimum found realises the tie-break
policy (fewer distinct diameters, then smaller maximum diameter). -/
def flexCombos (count : ℕ) : List Combo :=
  (flexDiams.map fun d =>
    ⟨s!"{count}T{d}", (pyRound ((count : ℚ) * barArea d) : ℚ), [d], 0, 0⟩) ++
  (flexDiams.flatMap fun d1 =>
    (flexDiams.filter fun d2 => d2 ≤ d1).map fun d2 =>
      ⟨s!"{count}T{d1} + {count}T{d2}",
        (pyRound ((count : ℚ) * (barArea d1 + barArea d2)) : ℚ),
        [d1, d2], 0, 0⟩)

/-- Modelled from the spec (section 4.2 stage 1, and the `beam_design`
docstring "the longitudinal rebar count is calculated based on the width
(n-1)"): number of bar positions across the width; width 400 gives 3, matching
`test_get_long_count`. -/
def flex_rebar_count (b : Beam) : ℕ := (⌊b.width / 100⌋ - 1).toNat

/-- Modelled from the spec (section 4.2 stage 2, torsion splitting): the
effective top flexural requirement; when depth ≤ 700 half the torsion-flexural
requirement is added, otherwise the pure flexural requirement stands. -/
def effTopReq (b : Beam) (p : Pos) : ℚ :=
  b.req_top_flex_reinf.get p +
    (if b.depth ≤ 700 then b.req_torsion_flex_reinf.get p / 2 else 0)

/-- Modelled from the spec (section 4.2 stage 2): the effective bottom
flexural requirement after torsion splitting. -/
def effBotReq (b : Beam) (p : Pos) : ℚ :=
  b.req_bot_flex_reinf.get p +
    (if b.depth ≤ 700 then b.req_torsion_flex_reinf.get p / 2 else 0)

/-- Modelled from the spec (section 3 "ResidualArea", section 4.2 stage 5, and
`test_residual_rebar`): per position, the excess of provided flexural area over
the pure flexural demand, top and bottom each clamped at 0. -/
def residualAt (b : Beam) (top bot : Selection) (p : Pos) : ℚ :=
  max 0 (top.provided - b.req_top_flex_reinf.get p) +
    max 0 (bot.provided - b.req_bot_flex_reinf.get p)

/-- Modelled from the spec: results of the missing `flexure.Flexure` designer
(attributes named as the test reads them). -/
structure Flexure : Type where
  flex_rebar_count : ℕ
  top_flex_rebar : Tri Selection
  bot_flex_rebar : Tri Selection
  residual_rebar : Tri ℚ
deriving DecidableEq

/-- Modelled from the spec (section 4.2): the flexural design pass.  The
span-dependent feasibility re-check of stage 4 is modelled as the identity
re-check, since the spec names no concrete constructability rule. -/
def flexDesign (b : Beam) : Flexure :=
  let count := flex_rebar_count b
  let combos := flexCombos count
  let top : Tri Selection :=
    ⟨select (effTopReq b Pos.left) combos,
     select (effTopReq b Pos.middle) combos,
     select (effTopReq b Pos.right) combos⟩
  let bot : Tri Selection :=
    ⟨select (effBotReq b Pos.left) combos,
     select (effBotReq b Pos.middle) combos,
     select (effBotReq b Pos.right) combos⟩
  ⟨count, top, bot,
    ⟨residualAt b top.left bot.left Pos.left,
     residualAt b top.middle bot.middle Pos.middle,
     residualAt b top.right bot.right Pos.right⟩⟩

/-- Modelled from the spec (section 4.3 stage 1): ascending list of available
link leg counts from the beam width; width 400 gives [2, 3], matching
`test_shear_legs`.  The list always starts at 2 legs. -/
def shearLegs (b : Beam) : List ℕ :=
  2 :: ([3, 4].filter fun n => ((n : ℚ) - 1) * 200 ≤ b.width)

/-- Modelled from the spec (section 4.3 stage 2): governing required shear
area per zone, combining the shear-derived and torsion-shear requirements
additively. -/
def totalReqShear (b : Beam) : Tri ℚ :=
  ⟨b.req_shear_reinf.left + b.req_torsion_reinf.left,
   b.req_shear_reinf.middle + b.req_torsion_reinf.middle,
   b.req_shear_reinf.right + b.req_torsion_reinf.right⟩

/-- Modelled from the spec (section 4.3 stage 3): the full list of standard
longitudinal link spacings, matching `test_min_shear_long_spacing`. -/
def shearCenterSpacingList : List ℕ := [250, 200, 150, 125, 100]

/-- Modelled from the spec (section 4.3 stage 3): the end-zone minimum
spacings, matching `test_min_shear_long_spacing`. -/
def shearEndSpacingList : List ℕ := [125, 100]

/-- Modelled from the spec (section 4.3): allowable spacings per zone — end
zones are capped at 125 mm, the middle zone may use the full standard list. -/
def zoneSpacings : Pos → List ℕ
  | Pos.middle => shearCenterSpacingList
  | _ => shearEndSpacingList

/-- Modelled from the spec (section 4.3 stage 4): the link diameter catalog;
the minimum link diameter is 12 mm, per the test's `2L-T12@…` selections. -/
def linkDiams : List ℕ := [12, 16]

/-- Modelled from the spec (section 4.3 stage 4): all leg-count × diameter ×
spacing link combinations for one zone; provided area is per unit length,
`legs * barArea * (1000 / spacing)`. -/
def shearCombos (b : Beam) (p : Pos) : List Combo :=
  (shearLegs b).flatMap fun (legs : Nat) =>
    linkDiams.flatMap fun (d : Nat) =>
      (zoneSpacings p).map fun (s : Nat) =>
        ⟨s!"{legs}L-T{d}@{s}",
          (pyRound ((legs : ℚ) * barArea d * (1000 / (s : ℚ))) : ℚ),
          [], d, s⟩

/-- Modelled from the spec: results of the missing `shear.Shear` designer
(attributes named as the test reads them). -/
structure Shear : Type where
  shear_links_count : List ℕ
  total_req_shear : Tri ℚ
  shear_spacing : List ℕ
  shear_center_spacing : List ℕ
  shear_links : Tri Selection
deriving DecidableEq

/-- Modelled from the spec (section 4.3): the shear design pass.  The flexural
results are carried for the geometric-feasibility dependency the spec
mentions, for which it states no concrete rule. -/
def shearDesign (b : Beam) (_f : Flexure) : Shear :=
  let tot := totalReqShear b
  ⟨shearLegs b, tot, shearEndSpacingList, shearCenterSpacingList,
    ⟨select tot.left (shearCombos b Pos.left),
     select tot.middle (shearCombos b Pos.middle),
     select tot.right (shearCombos b Pos.right)⟩⟩

/-- Modelled from the spec (section 4.4 stage 1): net torsion demand per
position, `max 0 (torsion_flexural_requirement - residual)`. -/
def sidefaceReq (b : Beam) (f : Flexure) : Tri ℚ :=
  ⟨max 0 (b.req_torsion_flex_reinf.left - f.residual_rebar.left),
   max 0 (b.req_torsion_flex_reinf.middle - f.residual_rebar.middle),
   max 0 (b.req_torsion_flex_reinf.right - f.residual_rebar.right)⟩

/-- Maximum of a list of naturals (0 on the empty list). -/
def listMax (l : List ℕ) : ℕ := l.foldl max 0

/-- Modelled from the spec (section 4.4 stage 2): vertical clear space for
side-face bars — depth minus top and bottom cover (40 mm each) minus the
largest flexural bar diameter and the largest link diameter in use. -/
def sidefaceClearspace (b : Beam) (f : Flexure) (s : Shear) : ℚ :=
  b.depth - 2 * 40 -
    (listMax (f.top_flex_rebar.left.diams ++ f.bot_flex_rebar.left.diams) : ℚ) -
    (listMax [s.shear_links.left.dia, s.shear_links.middle.dia,
      s.shear_links.right.dia] : ℚ)

/-- Modelled from the spec (section 4.4 stage 3): the side-face diameter
catalog. -/
def sidefaceDiams : List ℕ := [16, 20, 25]

/-- Modelled from the spec (section 4.4 stage 3): standard side-face spacings,
capped at the 250 mm code maximum. -/
def sidefaceSpacings : List ℕ := [250, 200, 150, 125, 100]

/-- Modelled from the spec (section 4.4 stage 3): all side-face diameter ×
spacing combinations; `⌊clearspace / spacing⌋` bars on each of the two faces. -/
def sidefaceCombos (clearspace : ℚ) : List Combo :=
  sidefaceDiams.flatMap fun (d : Nat) =>
    sidefaceSpacings.map fun (s : Nat) =>
      ⟨s!"T{d}@{s} EF",
        (pyRound (2 * ((⌊clearspace / (s : ℚ)⌋).toNat : ℚ) * barArea d) : ℚ),
        [], d, s⟩

/-- Modelled from the spec: results of the missing `sideface.Sideface`
designer (attributes named as the test reads them). -/
structure Sideface : Type where
  required_torsion_reinforcement : Tri ℚ
  total_required_torsion_reinforcement : ℚ
  sideface_clearspace : ℚ
  sideface_rebar : Selection
deriving DecidableEq

/-- Modelled from the spec (section 4.4): the side-face design pass, sized to
the total net torsion demand across the three positions. -/
def sidefaceDesign (b : Beam) (f : Flexure) (s : Shear) : Sideface :=
  let req := sidefaceReq b f
  let tot := req.left + req.middle + req.right
  let cs := sidefaceClearspace b f s
  ⟨req, tot, cs, select tot (sidefaceCombos cs)⟩

/-- The default (not yet computed) selection record. -/
def emptySelection : Selection := ⟨"", 0, 0, [], 0, 0, false⟩

/-- The `BeamDesign` object of `SRC/beam_design.py`: the beam plus the three
designer result bundles. -/
structure BeamDesign : Type where
  beam : Beam
  flexural_design : Flexure
  shear_design : Shear
  sideface_design : Sideface
deriving DecidableEq

/-- Source `BeamDesign.__init__`: stores the beam and constructs the three designers
with empty results. -/
def initDesign (b : Beam) : BeamDesign :=
  ⟨b,
   ⟨0, ⟨emptySelection, emptySelection, emptySelection⟩,
    ⟨emptySelection, emptySelection, emptySelection⟩, ⟨0, 0, 0⟩⟩,
   ⟨[], ⟨0, 0, 0⟩, [], [],
    ⟨emptySelection, emptySelection, emptySelection⟩⟩,
   ⟨⟨0, 0, 0⟩, 0, 0, emptySelection⟩⟩

/-- Source `BeamDesign.calculate_flexural_design`: recomputes the flexural results
from the beam. -/
def calculate_flexural_design (st : BeamDesign) : BeamDesign :=
  { st with flexural_design := flexDesign st.beam }

/-- Source `BeamDesign.calculate_shear_design`: recomputes the shear results from the
beam and the flexural results. -/
def calculate_shear_design (st : BeamDesign) : BeamDesign :=
  { st with shear_design := shearDesign st.beam st.flexural_design }

/-- Source `BeamDesign.calculate_sideface_design`: recomputes the side-face results
from the beam and both prior bundles. -/
def calculate_sideface_design (st : BeamDesign) : BeamDesign :=
  { st with sideface_design :=
      sidefaceDesign st.beam st.flexural_design st.shear_design }

/-- The three design passes in the mandated order (flexural, then shear, then
side-face), as in the typical-usage example of `SRC/beam_design.py`. -/
def runSequence (st : BeamDesign) : BeamDesign :=
  calculate_sideface_design
    (calculate_shear_design (calculate_flexural_design st))

/-- The full design of a beam: construct the `BeamDesign`, then run the design
sequence. -/
def designFull (b : Beam) : BeamDesign :=
  runSequence (initDesign b)

/-- The `BeamQuantities` object of `SRC/beam_design.py`: the designed beam
plus the identity and geometry fields copied in `__init__`. -/
structure BeamQuantities : Type where
  designed_beam : BeamDesign
  storey : String
  etabs_id : String
  span : ℚ
  width : ℚ
  depth : ℚ
deriving DecidableEq

/-- Source `BeamQuantities.__init__`: copy storey, ETABS id, span, width and depth
from the designed beam. -/
def BeamQuantities.ofDesign (d : BeamDesign) : BeamQuantities :=
  ⟨d, d.beam.storey, d.beam.etabs_id, d.beam.span, d.beam.width, d.beam.depth⟩

/-- Source `BeamQuantities.conc_area`: `(width * depth) * 10**-6` (m²). -/
def BeamQuantities.conc_area (q : BeamQuantities) : ℚ :=
  (q.width * q.depth) * (1 / 10 ^ 6)

/-- Source `BeamQuantities.conc_volume`: `round((conc_area * span) * 10**-3, 3)`
(m³). -/
def BeamQuantities.conc_volume (q : BeamQuantities) : ℚ :=
  roundTo 3 ((q.conc_area * q.span) * (1 / 10 ^ 3))

/-- Source `BeamQuantities.flex_area`: the six provided flexural areas summed, scaled
by `10**-6` and rounded to 3 decimals (m²). -/
def BeamQuantities.flex_area (q : BeamQuantities) : ℚ :=
  roundTo 3
    ((q.designed_beam.flexural_design.top_flex_rebar.left.provided +
      q.designed_beam.flexural_design.top_flex_rebar.middle.provided +
      q.designed_beam.flexural_design.top_flex_rebar.right.provided +
      q.designed_beam.flexural_design.bot_flex_rebar.left.provided +
      q.designed_beam.flexural_design.bot_flex_rebar.middle.provided +
      q.designed_beam.flexural_design.bot_flex_rebar.right.provided) *
      (1 / 10 ^ 6))

/-- Source `BeamQuantities.flex_volume`: `round((flex_area * span) * 10**-3, 3)`
(m³). -/
def BeamQuantities.flex_volume (q : BeamQuantities) : ℚ :=
  roundTo 3 ((q.flex_area * q.span) * (1 / 10 ^ 3))

/-- Source `BeamQuantities.shear_area`: the three provided link areas summed, scaled
by `10**-6` and rounded to 3 decimals (m²). -/
def BeamQuantities.shear_area (q : BeamQuantities) : ℚ :=
  roundTo 3
    ((q.designed_beam.shear_design.shear_links.left.provided +
      q.designed_beam.shear_design.shear_links.middle.provided +
      q.designed_beam.shear_design.shear_links.right.provided) *
      (1 / 10 ^ 6))

/-- The `try`-block of `BeamQuantities.shear_volume`: each `span / 1000` is a
Python true division, so the block raises (`none`) exactly when a divisor is
zero. -/
def BeamQuantities.shear_volume_try (q : BeamQuantities) : Option ℚ :=
  (pyDiv q.span 1000).bind fun s1 =>
    (pyDiv q.span 1000).bind fun s2 =>
      (pyDiv q.span 1000).bind fun s3 =>
        some (roundTo 3
          ((q.designed_beam.shear_design.shear_links.left.provided * s1 +
            q.designed_beam.shear_design.shear_links.middle.provided * s2 +
            q.designed_beam.shear_design.shear_links.right.provided * s3) *
            (1 / 10 ^ 6)))

/-- Source `BeamQuantities.shear_volume`: the `try` value, or 0 on
`ZeroDivisionError` (the `except` branch). -/
def BeamQuantities.shear_volume (q : BeamQuantities) : ℚ :=
  (q.shear_volume_try).getD 0

/-- Source `BeamQuantities.sideface_area`: provided side-face area scaled by
`10**-6`, with no rounding (m²). -/
def BeamQuantities.sideface_area (q : BeamQuantities) : ℚ :=
  q.designed_beam.sideface_design.sideface_rebar.provided * (1 / 10 ^ 6)

/-- Source `BeamQuantities.sideface_volume`:
`round((sideface_area * span) * 10**-3, 3)` (m³). -/
def BeamQuantities.sideface_volume (q : BeamQuantities) : ℚ :=
  roundTo 3 ((q.sideface_area * q.span) * (1 / 10 ^ 3))

/-- Source `BeamQuantities.total_rebar_area`: sum of the three category areas,
rounded to 3 decimals (m²). -/
def BeamQuantities.total_rebar_area (q : BeamQuantities) : ℚ :=
  roundTo 3 (q.flex_area + q.shear_area + q.sideface_area)

/-- Source `BeamQuantities.total_rebar_volume`: sum of the three category volumes,
rounded to 3 decimals (m³). -/
def BeamQuantities.total_rebar_volume (q : BeamQuantities) : ℚ :=
  roundTo 3 (q.flex_volume + q.shear_volume + q.sideface_volume)

/-- The 45 MultiIndex column tuples of the beam-schedule DataFrame built in
`SRC/beam_table.py`, in source order. -/
def beamScheduleColumns : List (String × String) :=
  [("Storey", ""),
   ("Etabs ID", ""),
   ("Span (mm)", ""),
   ("Dimensions", "Width (mm)"),
   ("Dimensions", "Depth (mm)"),
   ("Bottom Reinforcement", "Left (BL)"),
   ("Bottom Reinforcement", "Middle (B)"),
   ("Bottom Reinforcement", "Right (BR)"),
   ("Top Reinforcement", "Left (TL)"),
   ("Top Reinforcement", "Middle (T)"),
   ("Top Reinforcement", "Right (TR)"),
   ("Side Face Reinforcement", ""),
   ("Shear links", "Left (H)"),
   ("Shear links", "Middle (J)"),
   ("Shear links", "Right (K)"),
   ("Flexural BL Criteria", "Required (mm^2)"),
   ("Flexural BL Criteria", "Provided (mm^2)"),
   ("Flexural BL Criteria", "Utilization (%)"),
   ("Flexural BM Criteria", "Required (mm^2)"),
   ("Flexural BM Criteria", "Provided (mm^2)"),
   ("Flexural BM Criteria", "Utilization (%)"),
   ("Flexural BR Criteria", "Required (mm^2)"),
   ("Flexural BR Criteria", "Provided (mm^2)"),
   ("Flexural BR Criteria", "Utilization (%)"),
   ("Flexural TL Criteria", "Required (mm^2)"),
   ("Flexural TL Criteria", "Provided (mm^2)"),
   ("Flexural TL Criteria", "Utilization (%)"),
   ("Flexural TM Criteria", "Required (mm^2)"),
   ("Flexural TM Criteria", "Provided (mm^2)"),
   ("Flexural TM Criteria", "Utilization (%)"),
   ("Flexural TR Criteria", "Required (mm^2)"),
   ("Flexural TR Criteria", "Provided (mm^2)"),
   ("Flexural TR Criteria", "Utilization (%)"),
   ("Sideface Criteria", "Required (mm^2)"),
   ("Sideface Criteria", "Provided (mm^2)"),
   ("Sideface Criteria", "Utilization (%)"),
   ("Shear L Criteria", "Required (mm^2)"),
   ("Shear L Criteria", "Provided (mm^2)"),
   ("Shear L Criteria", "Utilization (%)"),
   ("Shear M Criteria", "Required (mm^2)"),
   ("Shear M Criteria", "Provided (mm^2)"),
   ("Shear M Criteria", "Utilization (%)"),
   ("Shear R Criteria", "Required (mm^2)"),
   ("Shear R Criteria", "Provided (mm^2)"),
   ("Shear R Criteria", "Utilization (%)")]

/-- The one-row quantities dictionary of `SRC/beam_table.py`: 15 named
entries, each initialised to `None`. -/
def quantitiesScheduleRow : List (String × Option ℚ) :=
  [("Storey", none),
   ("Etabs ID", none),
   ("Span (mm)", none),
   ("Width (mm)", none),
   ("Depth (mm)", none),
   ("Concrete Area (m^2)", none),
   ("Concrete Volume (m^3)", none),
   ("Flexural Rebar Area (m^2)", none),
   ("Flexural Rebar Volume (m^3)", none),
   ("Shear Rebar Area (m^2)", none),
   ("Shear Rebar Volume (m^3)", none),
   ("Sideface Rebar Area (m^2)", none),
   ("Sideface Rebar Volume (m^3)", none),
   ("Total Rebar Area (m^2)", none),
   ("Total Rebar Volume (m^3)", none)]

/-- Source `get_beam_table` of `SRC/beam_table.py`: the pair of the empty
beam-schedule frame (its column tuples) and the one-row quantities frame.  It
takes no input, so its output is this constant pair. -/
def get_beam_table : List (String × String) × List (String × Option ℚ) :=
  (beamScheduleColumns, quantitiesScheduleRow)

theorem pickMin_aux_mem (l : List Combo) :
    ∀ (acc : Option Combo) (c : Combo),
      l.foldl
        (fun acc c =>
          match acc with
          | none => some c
          | some a => if c.provided < a.provided then some c else some a)
        acc = some c →
      c ∈ l ∨ acc = some c := by
  induction l with
  | nil => intro acc c h; exact Or.inr h
  | cons x xs ih =>
    intro acc c h
    rcases ih _ c h with hmem | hstep
    · exact Or.inl (List.mem_cons_of_mem _ hmem)
    · cases acc with
      | none =>
        simp only at hstep
        injection hstep with hxc
        subst hxc
        exact Or.inl (List.mem_cons_self x xs)
      | some a =>
        simp only at hstep
        by_cases hlt : x.provided < a.provided
        · rw [if_pos hlt] at hstep
          injection hstep with hxc
          subst hxc
          exact Or.inl (List.mem_cons_self x xs)
        · rw [if_neg hlt] at hstep
          exact Or.inr hstep

/-- The minimum-provided pick is a member of the candidate list. -/
theorem pickMin_mem {l : List Combo} {c : Combo} (h : pickMin l = some c) :
    c ∈ l := by
  rcases pickMin_aux_mem l none c h with hmem | habs
  · exact hmem
  · cases habs

theorem pickMin_aux_isSome (l : List Combo) :
    ∀ acc : Combo,
      (l.foldl
        (fun acc c =>
          match acc with
          | none => some c
          | some a => if c.provided < a.provided then some c else some a)
        (some acc)).isSome = true := by
  induction l with
  | nil => intro acc; rfl
  | cons x xs ih =>
    intro acc
    simp only [List.foldl_cons]
    by_cases hlt : x.provided < acc.provided
    · rw [if_pos hlt]; exact ih x
    · rw [if_neg hlt]; exact ih acc

/-- On a non-empty candidate list the minimum pick exists. -/
theorem pickMin_isSome {l : List Combo} (h : l ≠ []) :
    (pickMin l).isSome = true := by
  cases l with
  | nil => exact absurd rfl h
  | cons x xs => exact pickMin_aux_isSome xs x

theorem pyRound_zero : pyRound 0 = 0 := by
  simp [pyRound]

theorem roundTo_zero (n : ℕ) : roundTo n 0 = 0 := by
  simp [roundTo, pyRound_zero]

theorem pyRound_nonneg {q : ℚ} (h : 0 ≤ q) : 0 ≤ pyRound q := by
  have h0 : (0 : ℤ) ≤ ⌊q⌋ := Int.floor_nonneg.mpr h
  simp only [pyRound]
  split_ifs <;> omega

theorem barArea_nonneg (d : ℕ) : 0 ≤ barArea d := by
  unfold barArea piQ
  positivity

/-- The selector always reports the utilization formula, and whenever it marks
a selection solved the provided area meets the requirement. -/
theorem select_spec (r : ℚ) (cs : List Combo) :
    ((select r cs).solved = true → r ≤ (select r cs).provided) ∧
    (select r cs).utilization =
      (if r = 0 then 0
       else roundTo 1 (r / (select r cs).provided * 100)) := by
  unfold select
  cases hmin : pickMin (cs.filter fun c => r ≤ c.provided) with
  | some c =>
    dsimp only
    constructor
    · intro _
      have hc := pickMin_mem hmin
      have hmem := List.mem_filter.mp hc
      exact of_decide_eq_true hmem.2
    · simp [utilizationOf]
  | none =>
    dsimp only
    cases hmax : pickMax cs with
    | some c =>
      dsimp only
      refine ⟨fun h => ?_, by simp [utilizationOf]⟩
      cases h
    | none =>
      dsimp only
      refine ⟨fun h => ?_, ?_⟩
      · cases h
      · by_cases hr : r = 0
        · simp [hr]
        · simp [hr, div_zero, roundTo_zero]

/-- With zero demand and a non-empty catalog of nonnegative provided areas,
the selector solves with utilization 0. -/
theorem select_zero_spec (cs : List Combo)
    (hpos : ∀ c ∈ cs, (0 : ℚ) ≤ c.provided) (hne : cs ≠ []) :
    (select 0 cs).solved = true ∧ (select 0 cs).utilization = 0 := by
  have hfil : (cs.filter fun c => (0 : ℚ) ≤ c.provided) = cs :=
    List.filter_eq_self.mpr fun a ha => decide_eq_true (hpos a ha)
  unfold select
  rw [hfil]
  obtain ⟨c, hc⟩ := Option.isSome_iff_exists.mp (pickMin_isSome hne)
  rw [hc]
  exact ⟨rfl, by simp [utilizationOf]⟩

theorem shearCombos_nonneg (b : Beam) (p : Pos) :
    ∀ c ∈ shearCombos b p, (0 : ℚ) ≤ c.provided := by
  intro c hc
  simp only [shearCombos, List.mem_flatMap, List.mem_map] at hc
  obtain ⟨legs, _, d, _, s, _, rfl⟩ := hc
  dsimp only
  refine Int.cast_nonneg.mpr (pyRound_nonneg ?_)
  have h1 : (0 : ℚ) ≤ (legs : ℚ) := Nat.cast_nonneg legs
  have h2 := barArea_nonneg d
  have h3 : (0 : ℚ) ≤ 1000 / (s : ℚ) :=
    div_nonneg (by norm_num) (Nat.cast_nonneg s)
  exact mul_nonneg (mul_nonneg h1 h2) h3

theorem shearCombos_ne_nil (b : Beam) (p : Pos) : shearCombos b p ≠ [] := by
  cases p <;>
    simp [shearCombos, shearLegs, linkDiams, zoneSpacings,
      shearEndSpacingList, shearCenterSpacingList]

/-- C7: running the full design sequence (flexural, then shear, then sideface
design) leaves every field of the beam input record unchanged — the design
passes only write the three result bundles, never the beam. -/
theorem design_never_mutates_beam (b : Beam) : (designFull b).beam = b := rfl

/-- C8: re-running the full design sequence on an unchanged input recomputes
every selection entirely and yields a result bundle identical to the first
run's. -/
theorem design_sequence_idempotent (b : Beam) :
    runSequence (designFull b) = designFull b := rfl

/-- C4: `conc_volume` equals the width times depth times span, unit-converted
and rounded once to 3 decimals. -/
theorem conc_volume_formula (d : BeamDesign) :
    (BeamQuantities.ofDesign d).conc_volume =
      roundTo 3 (d.beam.width * d.beam.depth * (1 / 10 ^ 6) *
        d.beam.span * (1 / 10 ^ 3)) := by
  unfold BeamQuantities.conc_volume BeamQuantities.conc_area
    BeamQuantities.ofDesign
  exact congrArg (roundTo 3) (by ring)

/-- Dividing `span / 1000` with the constant divisor 1000 never raises. -/
theorem pyDiv_thousand (x : ℚ) : pyDiv x 1000 = some (x / 1000) := by
  unfold pyDiv
  rw [if_neg]
  norm_num

/-- The value the `try` block of `shear_volume` always reaches. -/
theorem shear_volume_try_eq (q : BeamQuantities) :
    q.shear_volume_try = some (roundTo 3
      ((q.designed_beam.shear_design.shear_links.left.provided *
          (q.span / 1000) +
        q.designed_beam.shear_design.shear_links.middle.provided *
          (q.span / 1000) +
        q.designed_beam.shear_design.shear_links.right.provided *
          (q.span / 1000)) * (1 / 10 ^ 6))) := by
  unfold BeamQuantities.shear_volume_try
  rw [pyDiv_thousand]
  rfl

/-- C9: the `try` block of `shear_volume` always succeeds — its only divisions
are by the constant 1000 — and the result is the rounded span-weighted sum of
the three provided link areas; the `except ZeroDivisionError` branch is
unreachable. -/
theorem shear_volume_total (q : BeamQuantities) :
    q.shear_volume_try = some (roundTo 3
      ((q.designed_beam.shear_design.shear_links.left.provided *
          (q.span / 1000) +
        q.designed_beam.shear_design.shear_links.middle.provided *
          (q.span / 1000) +
        q.designed_beam.shear_design.shear_links.right.provided *
          (q.span / 1000)) * (1 / 10 ^ 6))) ∧
    q.shear_volume = roundTo 3
      ((q.designed_beam.shear_design.shear_links.left.provided *
          (q.span / 1000) +
        q.designed_beam.shear_design.shear_links.middle.provided *
          (q.span / 1000) +
        q.designed_beam.shear_design.shear_links.right.provided *
          (q.span / 1000)) * (1 / 10 ^ 6)) := by
  refine ⟨shear_volume_try_eq q, ?_⟩
  unfold BeamQuantities.shear_volume
  rw [shear_volume_try_eq q]
  rfl

/-- C3: no quantity derivation propagates a division-by-zero error to the
caller: the only quantity with a guarded division, `shear_volume`, always
reaches a value inside its `try` block (even for a zero span, which only
appears as a dividend), and returns exactly that value. -/
theorem quantities_never_raise (q : BeamQuantities) :
    ∃ v : ℚ, q.shear_volume_try = some v ∧ q.shear_volume = v := by
  refine ⟨_, shear_volume_try_eq q, ?_⟩
  unfold BeamQuantities.shear_volume
  rw [shear_volume_try_eq q]
  rfl

/-- C10: `get_beam_table` is a constant pair: the schedule frame has exactly
45 distinct column tuples in a fixed order and the quantities frame has
exactly 15 named entries, all `None`. -/
theorem beam_table_constant :
    get_beam_table.1.length = 45 ∧ get_beam_table.1.Nodup ∧
    get_beam_table.2.length = 15 ∧
    ∀ e ∈ get_beam_table.2, e.2 = none := by
  refine ⟨rfl, ?_, rfl, ?_⟩ <;> with_unfolding_all decide

/-- C6: whenever the governing required shear area of a zone is zero, the
selected shear links have utilization 0 and are marked solved — minimum
reinforcement always satisfies zero demand. -/
theorem shear_zero_demand_spec (b : Beam) (p : Pos)
    (h : (totalReqShear b).get p = 0) :
    ((designFull b).shear_design.shear_links.get p).utilization = 0 ∧
    ((designFull b).shear_design.shear_links.get p).solved = true := by
  have hsel : (designFull b).shear_design.shear_links.get p =
      select ((totalReqShear b).get p) (shearCombos b p) := by
    cases p <;> rfl
  rw [hsel, h]
  obtain ⟨h1, h2⟩ := select_zero_spec (shearCombos b p)
    (shearCombos_nonneg b p) (shearCombos_ne_nil b p)
  exact ⟨h2, h1⟩

set_option maxRecDepth 8000 in
theorem shear_zero_demand_witness :
    (totalReqShear exampleBeam).get Pos.left = 0 ∧
    ((designFull exampleBeam).shear_design.shear_links.get
      Pos.left).utilization = 0 ∧
    ((designFull exampleBeam).shear_design.shear_links.get
      Pos.left).solved = true :=
  ⟨by with_unfolding_all decide,
   shear_zero_demand_spec exampleBeam Pos.left (by with_unfolding_all decide)⟩

/-- C2: for every selection — flexural top and bottom, shear links, side-face
— a solved flag implies the provided area meets the required area, and the
utilization field is `round(required / provided * 100, 1)`, with 0 when the
required area is 0. -/
theorem selection_adequacy_and_utilization (b : Beam) (p : Pos) :
    (((designFull b).flexural_design.top_flex_rebar.get p).solved = true →
      effTopReq b p ≤
        ((designFull b).flexural_design.top_flex_rebar.get p).provided) ∧
    ((designFull b).flexural_design.top_flex_rebar.get p).utilization =
      (if effTopReq b p = 0 then 0
       else roundTo 1 (effTopReq b p /
         ((designFull b).flexural_design.top_flex_rebar.get p).provided
           * 100)) ∧
    (((designFull b).flexural_design.bot_flex_rebar.get p).solved = true →
      effBotReq b p ≤
        ((designFull b).flexural_design.bot_flex_rebar.get p).provided) ∧
    ((designFull b).flexural_design.bot_flex_rebar.get p).utilization =
      (if effBotReq b p = 0 then 0
       else roundTo 1 (effBotReq b p /
         ((designFull b).flexural_design.bot_flex_rebar.get p).provided
           * 100)) ∧
    (((designFull b).shear_design.shear_links.get p).solved = true →
      (totalReqShear b).get p ≤
        ((designFull b).shear_design.shear_links.get p).provided) ∧
    ((designFull b).shear_design.shear_links.get p).utilization =
      (if (totalReqShear b).get p = 0 then 0
       else roundTo 1 ((totalReqShear b).get p /
         ((designFull b).shear_design.shear_links.get p).provided * 100)) ∧
    ((designFull b).sideface_design.sideface_rebar.solved = true →
      (designFull b).sideface_design.total_required_torsion_reinforcement ≤
        (designFull b).sideface_design.sideface_rebar.provided) ∧
    (designFull b).sideface_design.sideface_rebar.utilization =
      (if (designFull b).sideface_design.total_required_torsion_reinforcement
          = 0 then 0
       else roundTo 1
         ((designFull b).sideface_design.total_required_torsion_reinforcement /
           (designFull b).sideface_design.sideface_rebar.provided * 100)) := by
  cases p <;>
    exact ⟨(select_spec _ _).1, (select_spec _ _).2,
      (select_spec _ _).1, (select_spec _ _).2,
      (select_spec _ _).1, (select_spec _ _).2,
      (select_spec _ _).1, (select_spec _ _).2⟩

set_option maxRecDepth 8000 in
theorem selection_adequacy_witness :
    effTopReq exampleBeam Pos.left ≤
      ((designFull exampleBeam).flexural_design.top_flex_rebar.get
        Pos.left).provided ∧
    (totalReqShear exampleBeam).get Pos.left ≤
      ((designFull exampleBeam).shear_design.shear_links.get
        Pos.left).provided :=
  ⟨(selection_adequacy_and_utilization exampleBeam Pos.left).1
      (by with_unfolding_all decide),
   (selection_adequacy_and_utilization exampleBeam Pos.left).2.2.2.2.1
      (by with_unfolding_all decide)⟩

set_option maxRecDepth 8000 in
/-- C1 counterexample: the test beam has depth 750 > 700, yet its designed
residual at the left position is 340 mm², not 0 — the very value that
`test_residual_rebar` asserts. -/
theorem residual_claim_counterexample :
    700 < exampleBeam.depth ∧
    (designFull exampleBeam).flexural_design.residual_rebar.left = 340 ∧
    (340 : ℚ) ≠ 0 := by
  refine ⟨?_, ?_, ?_⟩ <;> with_unfolding_all decide

/-- C1 amended: when the depth exceeds 700 mm the residual at each position is
the clamped excess of provided area over the pure flexural demand, top plus
bottom — nonnegative, but not necessarily 0. -/
theorem residual_above_700_is_excess (b : Beam) (_h : 700 < b.depth)
    (p : Pos) :
    (designFull b).flexural_design.residual_rebar.get p =
      max 0 (((designFull b).flexural_design.top_flex_rebar.get p).provided -
        b.req_top_flex_reinf.get p) +
      max 0 (((designFull b).flexural_design.bot_flex_rebar.get p).provided -
        b.req_bot_flex_reinf.get p) ∧
    0 ≤ (designFull b).flexural_design.residual_rebar.get p := by
  cases p <;>
    exact ⟨rfl, add_nonneg (le_max_left _ _) (le_max_left _ _)⟩

set_option maxRecDepth 8000 in
theorem residual_above_700_witness :
    700 < exampleBeam.depth ∧
    0 ≤ (designFull exampleBeam).flexural_design.residual_rebar.get Pos.left :=
  ⟨by with_unfolding_all decide,
   (residual_above_700_is_excess exampleBeam (by with_unfolding_all decide)
     Pos.left).2⟩

set_option maxRecDepth 8000 in
/-- C5 counterexample: for the designed test beam the six provided flexural
areas sum to 8979 mm²; `flex_volume` reports 0.078 m³, while the claimed
formula without the intermediate rounding of the area sum gives 0.077 m³. -/
theorem flex_volume_counterexample :
    (BeamQuantities.ofDesign (designFull exampleBeam)).flex_volume ≠
      roundTo 3
        (((designFull exampleBeam).flexural_design.top_flex_rebar.left.provided
            +
          (designFull
            exampleBeam).flexural_design.top_flex_rebar.middle.provided +
          (designFull
            exampleBeam).flexural_design.top_flex_rebar.right.provided +
          (designFull
            exampleBeam).flexural_design.bot_flex_rebar.left.provided +
          (designFull
            exampleBeam).flexural_design.bot_flex_rebar.middle.provided +
          (designFull
            exampleBeam).flexural_design.bot_flex_rebar.right.provided) *
          (1 / 10 ^ 6) * exampleBeam.span * (1 / 10 ^ 3)) := by
  with_unfolding_all decide

/-- C5 amended: `flex_volume` is the span-weighted flexural area rounded to 3
decimals, where the area sum itself first passes through `flex_area`'s own
rounding to 3 decimals: `round(round(sum * 10⁻⁶, 3) * span * 10⁻³, 3)`. -/
theorem flex_volume_formula (d : BeamDesign) :
    (BeamQuantities.ofDesign d).flex_volume =
      roundTo 3
        (roundTo 3
          ((d.flexural_design.top_flex_rebar.left.provided +
            d.flexural_design.top_flex_rebar.middle.provided +
            d.flexural_design.top_flex_rebar.right.provided +
            d.flexural_design.bot_flex_rebar.left.provided +
            d.flexural_design.bot_flex_rebar.middle.provided +
            d.flexural_design.bot_flex_rebar.right.provided) * (1 / 10 ^ 6)) *
          d.beam.span * (1 / 10 ^ 3)) := rfl
